import Mathlib

/-!
Verification of the commitment-lock script of this repository
(src/contracts/commitment-lock/src/main.rs).

The script is shallowly embedded as a Lean function over an explicit
environment describing the host view of the transaction (script fields,
witness bytes, input since, cells).  The external hash primitives
(ckb blake2b_256 with its fixed personalization, and sha256) and the
external time-lock ordering of ckb_std are parameters of the embedding:
every claim about them is generic in the primitive, except where the
spec pins down the interface (see sinceGe below).  Bytes are modelled as
natural numbers; the little-endian decoders reduce each byte mod 256,
which is exact on well-formed byte strings.
-/

set_option maxRecDepth 10000

namespace CommitmentLock

/-- The error enum of the contract, in declaration order
(repr i8 starting at 1). -/
inductive Error
  | IndexOutOfBound
  | ItemMissing
  | LengthNotEnough
  | Encoding
  | MultipleInputs
  | InvalidSince
  | InvalidUnlockType
  | InvalidHtlcType
  | ArgsLenError
  | WitnessLenError
  | EmptyWitnessArgsError
  | WitnessHashError
  | OutputCapacityError
  | OutputLockError
  | OutputTypeError
  | OutputUdtAmountError
  | PreimageError
  | AuthError
deriving DecidableEq

/-- Numeric discriminants of the error enum: `IndexOutOfBound = 1` and the
following variants increment by one, as in the Rust `repr(i8)` enum. -/
def Error.code : Error → Int
  | .IndexOutOfBound => 1
  | .ItemMissing => 2
  | .LengthNotEnough => 3
  | .Encoding => 4
  | .MultipleInputs => 5
  | .InvalidSince => 6
  | .InvalidUnlockType => 7
  | .InvalidHtlcType => 8
  | .ArgsLenError => 9
  | .WitnessLenError => 10
  | .EmptyWitnessArgsError => 11
  | .WitnessHashError => 12
  | .OutputCapacityError => 13
  | .OutputLockError => 14
  | .OutputTypeError => 15
  | .OutputUdtAmountError => 16
  | .PreimageError => 17
  | .AuthError => 18

/-- A script as seen through load_script / load_cell_lock / load_cell_type:
code hash, hash type and args bytes. -/
structure Script where
  codeHash : List Nat
  hashType : Nat
  args : List Nat
deriving DecidableEq

/-- The transaction output at index 0, as read by load_cell_lock,
load_cell_capacity, load_cell_type and load_cell_data on Source::Output. -/
structure OutCell where
  lock : Script
  capacity : Nat
  typeScript : Option Script
  data : List Nat
deriving DecidableEq

/-- The host view consumed by the commitment-lock entry: every load_* value
the script can request.  hasSecondInput models whether
load_input_since(1, GroupInput) succeeds; output0 = none models
IndexOutOfBound on the output loads. -/
structure Env where
  hasSecondInput : Bool
  inputTypeScript : Option Script
  scriptCodeHash : List Nat
  scriptHashType : Nat
  scriptArgs : List Nat
  witness : List Nat
  txHash : List Nat
  inputSince : Nat
  inputData : List Nat
  inputCapacity : Nat
  output0 : Option OutCell
deriving DecidableEq

/-- Outcome of the auth function: ok carries the arguments handed to the
auth verifier through exec_cell (signature, message, pubkey hash); panic
models a Rust panic (out-of-range slice index or Vec::drain bound). -/
inductive AuthOutcome
  | ok (signature message pubkeyHash : List Nat)
  | err (e : Error)
  | panic
deriving DecidableEq

/-- Little-endian decoding of a byte string; each byte is reduced mod 256,
matching u8 semantics. -/
def leBytes : List Nat → Nat
  | [] => 0
  | b :: rest => b % 256 + 256 * leBytes rest

/-- u128::from_le_bytes of the first 16 bytes. -/
def u128_le (l : List Nat) : Nat := leBytes (l.take 16)

/-- u64::from_le_bytes of the first 8 bytes. -/
def u64_le (l : List Nat) : Nat := leBytes (l.take 8)

/-- Wrapping u128 subtraction, modelling the release-mode
new_amount -= payment_amount. -/
def u128_sub (a b : Nat) : Nat := (a + 2 ^ 128 - b % 2 ^ 128) % 2 ^ 128

/-- The EMPTY_WITNESS_ARGS sentinel stripped from the witness front. -/
def EMPTY_WITNESS_ARGS : List Nat :=
  [16, 0, 0, 0, 16, 0, 0, 0, 16, 0, 0, 0, 16, 0, 0, 0]

/-- Htlc::htlc_type, bit 0 of the flags byte: 0 = Offered, 1 = Received.
The accessor views an 85-byte record slice. -/
def htlcFlags (h : List Nat) : Nat := h.getD 0 0 % 256

/-- Htlc::payment_amount, bytes 1..17 little endian. -/
def paymentAmount (h : List Nat) : Nat := u128_le (h.drop 1)

/-- Htlc::payment_hash, bytes 17..37. -/
def paymentHash (h : List Nat) : List Nat := (h.drop 17).take 20

/-- Htlc::remote_htlc_pubkey_hash, bytes 37..57. -/
def remoteHtlcPubkeyHash (h : List Nat) : List Nat := (h.drop 37).take 20

/-- Htlc::local_htlc_pubkey_hash, bytes 57..77. -/
def localHtlcPubkeyHash (h : List Nat) : List Nat := (h.drop 57).take 20

/-- Htlc::htlc_expiry, bytes 77..85 little endian. -/
def htlcExpiry (h : List Nat) : Nat := u64_le (h.drop 77)

/-- Step A of the entry: classify the witness length (after the sentinel)
into the HTLC count and the optional trailing 32-byte preimage, mirroring
the match on witness_len in auth.  Only called with length at least 114. -/
def parseWitness (w : List Nat) : Option (Nat × Option (List Nat)) :=
  if w.length = 114 then some (0, none)
  else if (w.length - 114) % 85 = 0 then some ((w.length - 114) / 85, none)
  else if (w.length - 114) % 85 = 32 then
    some ((w.length - 32 - 114) / 85, some (w.drop (w.length - 32)))
  else none

/-- Structural worker for chunks85: the fuel argument only bounds the
recursion depth (each step drops at least one element, so fuel = length
is always enough). -/
def chunks85Go : Nat → List Nat → List (List Nat)
  | 0, _ => []
  | _, [] => []
  | fuel + 1, l => l.take 85 :: chunks85Go fuel (l.drop 85)

/-- slice::chunks with size 85, as used on the HTLC region of the witness:
split into consecutive 85-byte pieces, the last piece possibly shorter. -/
def chunks85 (l : List Nat) : List (List Nat) := chunks85Go l.length l

/-- The witness script rebuilt for the successor cell: the 48-byte base
followed by every HTLC record except the one at index k, in order.  This is
what the loop in auth accumulates in new_witness_script and concatenates. -/
def newWitnessScript (w : List Nat) (wsl k : Nat) : List Nat :=
  (w.take 48 :: (chunks85 ((w.drop 48).take (wsl - 48))).eraseIdx k).flatten

/-- Initial new_amount of the HTLC path: the UDT amount from the first 16
bytes of the group-input cell data when a type script is present (none
models the panic when the data is shorter than 16 bytes), else the input
capacity widened to u128. -/
def initialAmount (e : Env) : Option Nat :=
  match e.inputTypeScript with
  | some _ => if e.inputData.length < 16 then none else some (u128_le e.inputData)
  | none => some e.inputCapacity

/-- The per-HTLC unlock logic executed when the loop reaches the chosen
index: dispatch on (direction bit, since = 0), check the preimage or the
expiry, and produce the adjusted amount and the pubkey hash to
authenticate against. -/
def processHtlc (blake2b_256 sha256 : List Nat → List Nat) (ge : Nat → Nat → Bool)
    (since : Nat) (preimage : Option (List Nat)) (htlc : List Nat) (amount : Nat) :
    Except Error (Nat × List Nat) :=
  if htlcFlags htlc % 2 = 0 then
    if since = 0 then
      match preimage with
      | none => .error .PreimageError
      | some p =>
        if paymentHash htlc ≠
            (if htlcFlags htlc / 2 % 2 = 0 then (blake2b_256 p).take 20
             else (sha256 p).take 20) then
          .error .PreimageError
        else .ok (u128_sub amount (paymentAmount htlc), remoteHtlcPubkeyHash htlc)
    else
      if ge since (htlcExpiry htlc) then .ok (amount, localHtlcPubkeyHash htlc)
      else .error .InvalidSince
  else
    if since = 0 then
      match preimage with
      | none => .error .PreimageError
      | some p =>
        if paymentHash htlc ≠
            (if htlcFlags htlc / 2 % 2 = 0 then (blake2b_256 p).take 20
             else (sha256 p).take 20) then
          .error .PreimageError
        else .ok (amount, localHtlcPubkeyHash htlc)
    else
      if ge since (htlcExpiry htlc) then
        .ok (u128_sub amount (paymentAmount htlc), remoteHtlcPubkeyHash htlc)
      else .error .InvalidSince

/-- The unlock_type = 0xFF arm: revocation when since = 0, otherwise the
local-delay check against the delay value in the first 8 witness bytes. -/
def revocationPath (ge : Nat → Nat → Bool) (w : List Nat) (since : Nat)
    (signature message : List Nat) : AuthOutcome :=
  if since = 0 then .ok signature message ((w.drop 28).take 20)
  else if ge since (u64_le w) then .ok signature message ((w.drop 8).take 20)
  else .err .InvalidSince

/-- The match on type_script closing the HTLC arm: with a UDT type script,
require equal capacity, the same type script and the expected output token
amount (panicking when the output data is shorter than 16 bytes); without
one, require the output capacity to equal the adjusted amount. -/
def outputAmountCheck (e : Env) (out : OutCell) (newAmount : Nat)
    (signature pubkeyHash : List Nat) : AuthOutcome :=
  match e.inputTypeScript with
  | some udt =>
    if out.capacity ≠ e.inputCapacity then .err .OutputCapacityError
    else if out.typeScript ≠ some udt then .err .OutputTypeError
    else if out.data.length < 16 then .panic
    else if u128_le out.data ≠ newAmount then .err .OutputUdtAmountError
    else .ok signature e.txHash pubkeyHash
  | none =>
    if out.capacity ≠ newAmount then .err .OutputCapacityError
    else .ok signature e.txHash pubkeyHash

/-- The HTLC arm of the dispatch: bound-check the index, compute the
initial amount, run the per-HTLC logic on the chosen record, then enforce
the output-continuation checks on output 0. -/
def htlcPath (blake2b_256 sha256 : List Nat → List Nat) (ge : Nat → Nat → Bool)
    (e : Env) (w : List Nat) (wsl n : Nat) (preimage : Option (List Nat))
    (k : Nat) (signature : List Nat) : AuthOutcome :=
  if n ≤ k then .err .InvalidUnlockType
  else
    match initialAmount e with
    | none => .panic
    | some amount0 =>
      let chunks := chunks85 ((w.drop 48).take (wsl - 48))
      match processHtlc blake2b_256 sha256 ge e.inputSince preimage
          (chunks.getD k []) amount0 with
      | .error er => .err er
      | .ok (newAmount, pubkeyHash) =>
        match e.output0 with
        | none => .err .IndexOutOfBound
        | some out =>
          if out.lock.codeHash ≠ e.scriptCodeHash ∨
              out.lock.hashType ≠ e.scriptHashType ∨
              out.lock.args ≠ (blake2b_256 (newWitnessScript w wsl k)).take 20 then
            .err .OutputLockError
          else outputAmountCheck e out newAmount signature pubkeyHash

/-- The auth function of the commitment lock, translated from main.rs:
multiple-input check, args length check, sentinel strip (panicking when
the witness is shorter than the sentinel), length classification, witness
script hash check, then the unlock dispatch. -/
def auth (blake2b_256 sha256 : List Nat → List Nat) (ge : Nat → Nat → Bool)
    (e : Env) : AuthOutcome :=
  if e.hasSecondInput then .err .MultipleInputs
  else if e.scriptArgs.length ≠ 20 then .err .ArgsLenError
  else if e.witness.length < 16 then .panic
  else if e.witness.take 16 ≠ EMPTY_WITNESS_ARGS then .err .EmptyWitnessArgsError
  else
    let w := e.witness.drop 16
    if w.length < 114 then .err .WitnessLenError
    else
      match parseWitness w with
      | none => .err .WitnessLenError
      | some (n, preimage) =>
        let wsl := w.length - (if preimage.isSome then 98 else 66)
        if (blake2b_256 (w.take wsl)).take 20 ≠ e.scriptArgs.take 20 then
          .err .WitnessHashError
        else
          let unlockType := w.getD wsl 0
          let signature := (w.drop (wsl + 1)).take 65
          if unlockType = 255 then
            revocationPath ge w e.inputSince signature e.txHash
          else htlcPath blake2b_256 sha256 ge e w wsl n preimage unlockType signature

/-- program_entry: 0 on Ok, the error discriminant otherwise; none models
the panic case, where no exit code is returned. -/
def program_entry (blake2b_256 sha256 : List Nat → List Nat)
    (ge : Nat → Nat → Bool) (e : Env) : Option Int :=
  match auth blake2b_256 sha256 ge e with
  | .ok _ _ _ => some 0
  | .err er => some er.code
  | .panic => none

/-- Modelled from the spec: the tag of a 64-bit time-lock value.  The
comparison of since values is implemented by the external ckb_std Since
type, which is not part of src/; per the spec, time-lock values are 64-bit
encodings with a type tag inside the high bits (relative flag and metric
class) and the comparison is defined only when both carry the same tag.
We model the tag as the high 8 bits. -/
def sinceTag (v : Nat) : Nat := v % 2 ^ 64 / 2 ^ 56

/-- Modelled from the spec: the low 56-bit value part of a time-lock. -/
def sinceValue (v : Nat) : Nat := v % 2 ^ 56

/-- Modelled from the spec: the since comparison used at the InvalidSince
checks.  It holds only when both values carry the same tag and the value
part of the left operand is at least that of the right; with different
tags the comparison fails, so the greater-or-equal test is false. -/
def sinceGe (a b : Nat) : Bool :=
  decide (sinceTag a = sinceTag b ∧ sinceValue b ≤ sinceValue a)

/-- Sample blake2b stand-in used to evaluate the generic theorems on
concrete inputs. -/
def bl0 : List Nat → List Nat := fun _ => List.replicate 32 7

/-- Sample sha256 stand-in. -/
def sh0 : List Nat → List Nat := fun _ => List.replicate 32 9

/-- Sample time-lock ordering: plain comparison. -/
def ge0 : Nat → Nat → Bool := fun a b => decide (b ≤ a)

/-- Sample 20-byte script args matching bl0 outputs. -/
def args0 : List Nat := List.replicate 20 7

/-- Sample 48-byte witness base: delay 0, local-delay pkh of 2s,
revocation pkh of 3s. -/
def base48 : List Nat :=
  List.replicate 8 0 ++ List.replicate 20 2 ++ List.replicate 20 3

/-- Sample offered HTLC record: flags 0 (offered, blake2b), amount 500,
payment hash of 7s, remote pkh of 4s, local pkh of 6s, expiry 0. -/
def htlcA : List Nat :=
  0 :: (244 :: 1 :: List.replicate 14 0) ++ List.replicate 20 7 ++
    List.replicate 20 4 ++ List.replicate 20 6 ++ List.replicate 8 0

/-- Sample offered HTLC record with a payment hash of 9s, which no bl0 or
sh0 image matches. -/
def htlcP : List Nat :=
  0 :: (244 :: 1 :: List.replicate 14 0) ++ List.replicate 20 9 ++
    List.replicate 20 4 ++ List.replicate 20 6 ++ List.replicate 8 0

/-- Sample 114-byte witness: base plus unlock_type 0xFF and signature. -/
def w114 : List Nat := base48 ++ (255 :: List.replicate 65 1)

/-- Sample 199-byte witness: base, one HTLC, unlock_type 0. -/
def w199 : List Nat := base48 ++ htlcA ++ (0 :: List.replicate 65 1)

/-- Sample 199-byte witness with unlock_type 5 (out of range for n = 1). -/
def w199k5 : List Nat := base48 ++ htlcA ++ (5 :: List.replicate 65 1)

/-- Sample 231-byte witness: base, one HTLC with unmatchable payment hash,
unlock_type 0, and a trailing 32-byte preimage. -/
def w231 : List Nat :=
  base48 ++ htlcP ++ (0 :: List.replicate 65 1) ++ List.replicate 32 1

/-- Sample environment with a second group input. -/
def envMulti : Env :=
  { hasSecondInput := true, inputTypeScript := none, scriptCodeHash := [],
    scriptHashType := 0, scriptArgs := [], witness := [], txHash := [],
    inputSince := 0, inputData := [], inputCapacity := 0, output0 := none }

/-- Sample environment whose witness is shorter than the sentinel. -/
def envShort : Env :=
  { hasSecondInput := false, inputTypeScript := none, scriptCodeHash := [],
    scriptHashType := 0, scriptArgs := args0, witness := List.replicate 10 0,
    txHash := [], inputSince := 0, inputData := [], inputCapacity := 0,
    output0 := none }

/-- Sample environment whose witness body is 100 bytes, below the 114-byte
minimum. -/
def envLen : Env :=
  { hasSecondInput := false, inputTypeScript := none, scriptCodeHash := [],
    scriptHashType := 0, scriptArgs := args0,
    witness := EMPTY_WITNESS_ARGS ++ List.replicate 100 0, txHash := [],
    inputSince := 0, inputData := [], inputCapacity := 0, output0 := none }

/-- Sample environment whose script args do not match the witness script
hash. -/
def envHash : Env :=
  { hasSecondInput := false, inputTypeScript := none, scriptCodeHash := [],
    scriptHashType := 0, scriptArgs := List.replicate 20 1,
    witness := EMPTY_WITNESS_ARGS ++ w114, txHash := [], inputSince := 0,
    inputData := [], inputCapacity := 0, output0 := none }

/-- Sample environment for a revocation spend: since 0, unlock_type 0xFF. -/
def env3 : Env :=
  { hasSecondInput := false, inputTypeScript := none, scriptCodeHash := [1],
    scriptHashType := 0, scriptArgs := args0,
    witness := EMPTY_WITNESS_ARGS ++ w114, txHash := List.replicate 32 5,
    inputSince := 0, inputData := [], inputCapacity := 500, output0 := none }

/-- Sample environment with unlock_type 5 against a single HTLC. -/
def env6 : Env :=
  { hasSecondInput := false, inputTypeScript := none, scriptCodeHash := [1],
    scriptHashType := 0, scriptArgs := args0,
    witness := EMPTY_WITNESS_ARGS ++ w199k5, txHash := List.replicate 32 5,
    inputSince := 777, inputData := [], inputCapacity := 100, output0 := none }

/-- Sample output cell whose lock code hash differs from the script. -/
def out1 : OutCell :=
  { lock := { codeHash := [2], hashType := 0, args := args0 },
    capacity := 100, typeScript := none, data := [] }

/-- Sample environment for an HTLC refund whose output lock mismatches. -/
def env1 : Env :=
  { hasSecondInput := false, inputTypeScript := none, scriptCodeHash := [1],
    scriptHashType := 0, scriptArgs := args0,
    witness := EMPTY_WITNESS_ARGS ++ w199, txHash := List.replicate 32 5,
    inputSince := 777, inputData := [], inputCapacity := 100,
    output0 := some out1 }

/-- Sample UDT type script. -/
def udt0 : Script := { codeHash := [9], hashType := 1, args := [1, 2] }

/-- Sample output cell with a matching lock but wrong capacity. -/
def out2 : OutCell :=
  { lock := { codeHash := [1], hashType := 0, args := args0 },
    capacity := 55, typeScript := some udt0, data := List.replicate 16 0 }

/-- Sample UDT environment for an HTLC refund with capacity mismatch. -/
def env2 : Env :=
  { hasSecondInput := false, inputTypeScript := some udt0,
    scriptCodeHash := [1], scriptHashType := 0, scriptArgs := args0,
    witness := EMPTY_WITNESS_ARGS ++ w199, txHash := List.replicate 32 5,
    inputSince := 777, inputData := 100 :: List.replicate 15 0,
    inputCapacity := 100, output0 := some out2 }

/-- Sample environment for an HTLC claim with a wrong preimage. -/
def env4 : Env :=
  { hasSecondInput := false, inputTypeScript := none, scriptCodeHash := [1],
    scriptHashType := 0, scriptArgs := args0,
    witness := EMPTY_WITNESS_ARGS ++ w231, txHash := List.replicate 32 5,
    inputSince := 0, inputData := [], inputCapacity := 100, output0 := none }

/-- Sample environment for an HTLC refund whose since carries a different
time-lock tag than the HTLC expiry. -/
def env5 : Env :=
  { hasSecondInput := false, inputTypeScript := none, scriptCodeHash := [1],
    scriptHashType := 0, scriptArgs := args0,
    witness := EMPTY_WITNESS_ARGS ++ w199, txHash := List.replicate 32 5,
    inputSince := 2 ^ 56 + 100, inputData := [], inputCapacity := 100,
    output0 := none }

/-- Length equation implied by a successful witness classification. -/
theorem parseWitness_length {w : List Nat} {n : Nat} {pre : Option (List Nat)}
    (h4 : 114 ≤ w.length) (h5 : parseWitness w = some (n, pre)) :
    w.length = 48 + 85 * n + (if pre.isSome then 98 else 66) := by
  unfold parseWitness at h5
  split at h5
  · obtain ⟨rfl, rfl⟩ : 0 = n ∧ none = pre := by simpa using h5
    simp
    omega
  · split at h5
    · obtain ⟨rfl, rfl⟩ : (w.length - 114) / 85 = n ∧ none = pre := by simpa using h5
      simp
      omega
    · split at h5
      · obtain ⟨rfl, rfl⟩ :
            (w.length - 32 - 114) / 85 = n ∧ some (w.drop (w.length - 32)) = pre := by
          simpa using h5
        simp
        omega
      · exact absurd h5 (by simp)

/-- Unfolding of auth on an environment that passes every structural check:
the outcome is the unlock dispatch on the witness with the sentinel
stripped, with the witness script length equal to 48 + 85 n. -/
theorem auth_reach (blake2b_256 sha256 : List Nat → List Nat) (ge : Nat → Nat → Bool)
    (e : Env) (w : List Nat) (n : Nat) (pre : Option (List Nat))
    (h1 : e.hasSecondInput = false)
    (h2 : e.scriptArgs.length = 20)
    (h3 : e.witness = EMPTY_WITNESS_ARGS ++ w)
    (h4 : 114 ≤ w.length)
    (h5 : parseWitness w = some (n, pre))
    (h6 : (blake2b_256 (w.take (48 + 85 * n))).take 20 = e.scriptArgs) :
    auth blake2b_256 sha256 ge e =
      if w.getD (48 + 85 * n) 0 = 255 then
        revocationPath ge w e.inputSince ((w.drop (48 + 85 * n + 1)).take 65) e.txHash
      else
        htlcPath blake2b_256 sha256 ge e w (48 + 85 * n) n pre
          (w.getD (48 + 85 * n) 0) ((w.drop (48 + 85 * n + 1)).take 65) := by
  have hlen := parseWitness_length h4 h5
  have hwsl : w.length - (if pre.isSome then 98 else 66) = 48 + 85 * n := by
    cases hps : pre.isSome <;> simp [hps] at hlen ⊢ <;> omega
  have hE : EMPTY_WITNESS_ARGS.length = 16 := rfl
  have htk : (EMPTY_WITNESS_ARGS ++ w).take 16 = EMPTY_WITNESS_ARGS := by
    rw [← hE, List.take_left]
  have hdp : (EMPTY_WITNESS_ARGS ++ w).drop 16 = w := by
    rw [← hE, List.drop_left]
  have hargs : e.scriptArgs.take 20 = e.scriptArgs := by
    rw [← h2, List.take_length]
  unfold auth
  rw [h3]
  simp only [h1, List.length_append, hE, htk, hdp, h2, hargs, h5, hwsl, h6]
  norm_num
  omega

/-- The amount checks never produce OutputLockError. -/
theorem outputAmountCheck_ne_lockErr (e : Env) (out : OutCell) (a : Nat)
    (s p : List Nat) : outputAmountCheck e out a s p ≠ .err .OutputLockError := by
  unfold outputAmountCheck
  split <;> (repeat' split) <;> simp

/-- A successful amount check hands exactly the given signature, the tx
hash, and the given pubkey hash to the auth verifier. -/
theorem outputAmountCheck_ok {e : Env} {out : OutCell} {a : Nat}
    {s p s2 m q : List Nat} (h : outputAmountCheck e out a s p = .ok s2 m q) :
    s2 = s ∧ m = e.txHash ∧ q = p := by
  unfold outputAmountCheck at h
  repeat' split at h
  all_goals simp_all

/-- Unfolding of auth on an environment that takes the HTLC arm at a valid
index k: the outcome is the per-HTLC logic followed by the continuation
checks. -/
theorem auth_htlc_reach (blake2b_256 sha256 : List Nat → List Nat)
    (ge : Nat → Nat → Bool) (e : Env) (w : List Nat) (n : Nat)
    (pre : Option (List Nat)) (k amt0 : Nat)
    (h1 : e.hasSecondInput = false)
    (h2 : e.scriptArgs.length = 20)
    (h3 : e.witness = EMPTY_WITNESS_ARGS ++ w)
    (h4 : 114 ≤ w.length)
    (h5 : parseWitness w = some (n, pre))
    (h6 : (blake2b_256 (w.take (48 + 85 * n))).take 20 = e.scriptArgs)
    (h7 : w.getD (48 + 85 * n) 0 = k)
    (h8 : k ≠ 255)
    (h9 : k < n)
    (h10 : initialAmount e = some amt0) :
    auth blake2b_256 sha256 ge e =
      match processHtlc blake2b_256 sha256 ge e.inputSince pre
          ((chunks85 ((w.drop 48).take (85 * n))).getD k []) amt0 with
      | .error er => .err er
      | .ok (newAmount, pubkeyHash) =>
        match e.output0 with
        | none => .err .IndexOutOfBound
        | some out =>
          if out.lock.codeHash ≠ e.scriptCodeHash ∨
              out.lock.hashType ≠ e.scriptHashType ∨
              out.lock.args ≠ (blake2b_256 (newWitnessScript w (48 + 85 * n) k)).take 20
          then .err .OutputLockError
          else outputAmountCheck e out newAmount
            ((w.drop (48 + 85 * n + 1)).take 65) pubkeyHash := by
  have hA := auth_reach blake2b_256 sha256 ge e w n pre h1 h2 h3 h4 h5 h6
  rw [h7, if_neg h8] at hA
  rw [hA]
  unfold htlcPath
  rw [if_neg (by omega), h10]
  have h48 : 48 + 85 * n - 48 = 85 * n := by omega
  simp only [h48]

/-- C9: program_entry returns 0 on success and otherwise the numeric code
of the failing error, and the code assignment matches the exit-code table
of the spec: IndexOutOfBound=1, ItemMissing=2, LengthNotEnough=3,
Encoding=4, MultipleInputs=5, InvalidSince=6, InvalidUnlockType=7,
InvalidHtlcType=8, ArgsLenError=9, WitnessLenError=10,
EmptyWitnessArgsError=11, WitnessHashError=12, OutputCapacityError=13,
OutputLockError=14, OutputTypeError=15, OutputUdtAmountError=16,
PreimageError=17, AuthError=18. -/
theorem entry_exit_codes :
    (∀ (blake2b_256 sha256 : List Nat → List Nat) (ge : Nat → Nat → Bool)
       (e : Env) (s m p : List Nat),
        auth blake2b_256 sha256 ge e = .ok s m p →
        program_entry blake2b_256 sha256 ge e = some 0) ∧
    (∀ (blake2b_256 sha256 : List Nat → List Nat) (ge : Nat → Nat → Bool)
       (e : Env) (er : Error),
        auth blake2b_256 sha256 ge e = .err er →
        program_entry blake2b_256 sha256 ge e = some er.code) ∧
    Error.code .IndexOutOfBound = 1 ∧ Error.code .ItemMissing = 2 ∧
    Error.code .LengthNotEnough = 3 ∧ Error.code .Encoding = 4 ∧
    Error.code .MultipleInputs = 5 ∧ Error.code .InvalidSince = 6 ∧
    Error.code .InvalidUnlockType = 7 ∧ Error.code .InvalidHtlcType = 8 ∧
    Error.code .ArgsLenError = 9 ∧ Error.code .WitnessLenError = 10 ∧
    Error.code .EmptyWitnessArgsError = 11 ∧ Error.code .WitnessHashError = 12 ∧
    Error.code .OutputCapacityError = 13 ∧ Error.code .OutputLockError = 14 ∧
    Error.code .OutputTypeError = 15 ∧ Error.code .OutputUdtAmountError = 16 ∧
    Error.code .PreimageError = 17 ∧ Error.code .AuthError = 18 := by
  refine ⟨?_, ?_, by decide⟩
  · intro bl sh ge e s m p h
    simp [program_entry, h]
  · intro bl sh ge e er h
    simp [program_entry, h]

/-- Evaluation of C9 on a concrete rejecting transaction. -/
theorem entry_exit_codes_app :
    program_entry bl0 sh0 ge0 envMulti = some (Error.code .MultipleInputs) :=
  entry_exit_codes.2.1 bl0 sh0 ge0 envMulti .MultipleInputs (by decide)

/-- C10: when the loaded witness is shorter than the 16-byte sentinel, the
entry panics at the drain call instead of returning an exit code (the
model returns the panic outcome and program_entry yields no code). -/
theorem short_witness_panics (blake2b_256 sha256 : List Nat → List Nat)
    (ge : Nat → Nat → Bool) (e : Env)
    (h1 : e.hasSecondInput = false) (h2 : e.scriptArgs.length = 20)
    (h3 : e.witness.length < 16) :
    auth blake2b_256 sha256 ge e = .panic ∧
    program_entry blake2b_256 sha256 ge e = none := by
  have ha : auth blake2b_256 sha256 ge e = .panic := by
    unfold auth
    simp [h1, h2, h3]
  exact ⟨ha, by simp [program_entry, ha]⟩

/-- Evaluation of C10 on a concrete 10-byte witness. -/
theorem short_witness_panics_app :
    auth bl0 sh0 ge0 envShort = .panic ∧
    program_entry bl0 sh0 ge0 envShort = none :=
  short_witness_panics bl0 sh0 ge0 envShort (by decide) (by decide) (by decide)

/-- C7: with L the witness length after the sentinel and r = L - 114, the
classification yields n = 0 and no preimage at r = 0, n = r / 85 and no
preimage when r mod 85 = 0, n = (r - 32) / 85 with the last 32 bytes as
preimage when r mod 85 = 32, and every other length, including L < 114,
is rejected with WitnessLenError. -/
theorem witness_length_classification (blake2b_256 sha256 : List Nat → List Nat)
    (ge : Nat → Nat → Bool) (e : Env) (w : List Nat)
    (h1 : e.hasSecondInput = false)
    (h2 : e.scriptArgs.length = 20)
    (h3 : e.witness = EMPTY_WITNESS_ARGS ++ w) :
    (w.length < 114 → auth blake2b_256 sha256 ge e = .err .WitnessLenError) ∧
    (114 ≤ w.length → (w.length - 114) % 85 ≠ 0 → (w.length - 114) % 85 ≠ 32 →
      auth blake2b_256 sha256 ge e = .err .WitnessLenError) ∧
    (w.length = 114 → parseWitness w = some (0, none)) ∧
    ((w.length - 114) % 85 = 0 →
      parseWitness w = some ((w.length - 114) / 85, none)) ∧
    ((w.length - 114) % 85 = 32 →
      parseWitness w =
        some ((w.length - 114 - 32) / 85, some (w.drop (w.length - 32)))) := by
  have hE : EMPTY_WITNESS_ARGS.length = 16 := rfl
  have htk : (EMPTY_WITNESS_ARGS ++ w).take 16 = EMPTY_WITNESS_ARGS := by
    rw [← hE, List.take_left]
  have hdp : (EMPTY_WITNESS_ARGS ++ w).drop 16 = w := by
    rw [← hE, List.drop_left]
  refine ⟨?_, ?_, ?_, ?_, ?_⟩
  · intro h
    unfold auth
    rw [h3]
    simp [h1, h2, List.length_append, hE, htk, hdp, h]
  · intro h4 ha hb
    have hne : parseWitness w = none := by
      unfold parseWitness
      rw [if_neg (by omega), if_neg ha, if_neg hb]
    unfold auth
    rw [h3]
    simp [h1, h2, List.length_append, hE, htk, hdp, hne,
      show ¬ w.length < 114 by omega]
  · intro h
    unfold parseWitness
    rw [if_pos h]
  · intro h
    unfold parseWitness
    by_cases h114 : w.length = 114
    · rw [if_pos h114]
      simp [h114]
    · rw [if_neg h114, if_pos h]
  · intro h
    have h114 : 114 < w.length := by omega
    unfold parseWitness
    rw [if_neg (by omega), if_neg (by omega), if_pos h,
      show w.length - 32 - 114 = w.length - 114 - 32 by omega]

/-- Evaluation of C7 on a concrete 100-byte witness body. -/
theorem witness_length_classification_app :
    auth bl0 sh0 ge0 envLen = .err .WitnessLenError :=
  (witness_length_classification bl0 sh0 ge0 envLen (List.replicate 100 0)
    (by decide) (by decide) rfl).1 (by decide)

/-- C8: once the length classification succeeds, a mismatch between the
first 20 bytes of the blake2b hash of the witness script
W = witness[0 .. 48 + 85 n] and the script args is rejected with
WitnessHashError, for every unlock type, since value and output, hence
before the dispatch and before any signature verification. -/
theorem witness_hash_guard (blake2b_256 sha256 : List Nat → List Nat)
    (ge : Nat → Nat → Bool) (e : Env) (w : List Nat) (n : Nat)
    (pre : Option (List Nat))
    (h1 : e.hasSecondInput = false)
    (h2 : e.scriptArgs.length = 20)
    (h3 : e.witness = EMPTY_WITNESS_ARGS ++ w)
    (h4 : 114 ≤ w.length)
    (h5 : parseWitness w = some (n, pre))
    (h6 : (blake2b_256 (w.take (48 + 85 * n))).take 20 ≠ e.scriptArgs) :
    auth blake2b_256 sha256 ge e = .err .WitnessHashError := by
  have hlen := parseWitness_length h4 h5
  have hwsl : w.length - (if pre.isSome then 98 else 66) = 48 + 85 * n := by
    cases hps : pre.isSome <;> simp [hps] at hlen ⊢ <;> omega
  have hE : EMPTY_WITNESS_ARGS.length = 16 := rfl
  have htk : (EMPTY_WITNESS_ARGS ++ w).take 16 = EMPTY_WITNESS_ARGS := by
    rw [← hE, List.take_left]
  have hdp : (EMPTY_WITNESS_ARGS ++ w).drop 16 = w := by
    rw [← hE, List.drop_left]
  have hargs : e.scriptArgs.take 20 = e.scriptArgs := by
    rw [← h2, List.take_length]
  unfold auth
  rw [h3]
  simp [h1, h2, List.length_append, hE, htk, hdp, h5, hwsl, hargs, h6,
    show ¬ w.length < 114 by omega]

/-- Evaluation of C8 on a concrete witness whose hash does not match. -/
theorem witness_hash_guard_app :
    auth bl0 sh0 ge0 envHash = .err .WitnessHashError :=
  witness_hash_guard bl0 sh0 ge0 envHash w114 0 none (by decide) (by decide)
    rfl (by decide) (by decide) (by decide)

/-- C3: with unlock_type 0xFF, a zero since authenticates against the
revocation pubkey hash W[28..48]; a non-zero since requires
since ≥ delay (W[0..8] little endian) under the time-lock ordering and
authenticates against the local-delay pubkey hash W[8..28], rejecting
with InvalidSince otherwise; and the outcome never inspects the output
cell. -/
theorem revocation_delay_paths (blake2b_256 sha256 : List Nat → List Nat)
    (ge : Nat → Nat → Bool) (e : Env) (w : List Nat) (n : Nat)
    (pre : Option (List Nat))
    (h1 : e.hasSecondInput = false)
    (h2 : e.scriptArgs.length = 20)
    (h3 : e.witness = EMPTY_WITNESS_ARGS ++ w)
    (h4 : 114 ≤ w.length)
    (h5 : parseWitness w = some (n, pre))
    (h6 : (blake2b_256 (w.take (48 + 85 * n))).take 20 = e.scriptArgs)
    (h7 : w.getD (48 + 85 * n) 0 = 255) :
    (e.inputSince = 0 →
      auth blake2b_256 sha256 ge e =
        .ok ((w.drop (48 + 85 * n + 1)).take 65) e.txHash ((w.drop 28).take 20)) ∧
    (e.inputSince ≠ 0 → ge e.inputSince (u64_le w) = true →
      auth blake2b_256 sha256 ge e =
        .ok ((w.drop (48 + 85 * n + 1)).take 65) e.txHash ((w.drop 8).take 20)) ∧
    (e.inputSince ≠ 0 → ge e.inputSince (u64_le w) = false →
      auth blake2b_256 sha256 ge e = .err .InvalidSince) ∧
    (∀ o : Option OutCell,
      auth blake2b_256 sha256 ge { e with output0 := o } =
        auth blake2b_256 sha256 ge e) := by
  have hA := auth_reach blake2b_256 sha256 ge e w n pre h1 h2 h3 h4 h5 h6
  rw [h7, if_pos rfl] at hA
  refine ⟨?_, ?_, ?_, ?_⟩
  · intro hs
    rw [hA]
    unfold revocationPath
    rw [if_pos hs]
  · intro hs hg
    rw [hA]
    unfold revocationPath
    rw [if_neg hs, if_pos hg]
  · intro hs hg
    rw [hA]
    unfold revocationPath
    rw [if_neg hs, if_neg (by simp [hg])]
  · intro o
    have hA2 := auth_reach blake2b_256 sha256 ge { e with output0 := o } w n pre
      h1 h2 h3 h4 h5 h6
    rw [h7, if_pos rfl] at hA2
    exact hA2.trans hA.symm

/-- Evaluation of C3 on a concrete revocation spend. -/
theorem revocation_delay_paths_app :
    auth bl0 sh0 ge0 env3 =
      .ok (List.replicate 65 1) (List.replicate 32 5) (List.replicate 20 3) :=
  (revocation_delay_paths bl0 sh0 ge0 env3 w114 0 none (by decide) (by decide)
    rfl (by decide) (by decide) (by decide) (by decide)).1 rfl

/-- C6: the dispatch on the unlock byte k: 0xFF takes the
revocation/local-delay arm, any other k below the HTLC count takes the
HTLC arm for index k, and any other k at or above the count is rejected
with InvalidUnlockType. -/
theorem unlock_dispatch (blake2b_256 sha256 : List Nat → List Nat)
    (ge : Nat → Nat → Bool) (e : Env) (w : List Nat) (n : Nat)
    (pre : Option (List Nat))
    (h1 : e.hasSecondInput = false)
    (h2 : e.scriptArgs.length = 20)
    (h3 : e.witness = EMPTY_WITNESS_ARGS ++ w)
    (h4 : 114 ≤ w.length)
    (h5 : parseWitness w = some (n, pre))
    (h6 : (blake2b_256 (w.take (48 + 85 * n))).take 20 = e.scriptArgs) :
    (w.getD (48 + 85 * n) 0 = 255 →
      auth blake2b_256 sha256 ge e =
        revocationPath ge w e.inputSince
          ((w.drop (48 + 85 * n + 1)).take 65) e.txHash) ∧
    (w.getD (48 + 85 * n) 0 ≠ 255 →
      auth blake2b_256 sha256 ge e =
        htlcPath blake2b_256 sha256 ge e w (48 + 85 * n) n pre
          (w.getD (48 + 85 * n) 0) ((w.drop (48 + 85 * n + 1)).take 65)) ∧
    (w.getD (48 + 85 * n) 0 ≠ 255 → n ≤ w.getD (48 + 85 * n) 0 →
      auth blake2b_256 sha256 ge e = .err .InvalidUnlockType) := by
  have hA := auth_reach blake2b_256 sha256 ge e w n pre h1 h2 h3 h4 h5 h6
  refine ⟨?_, ?_, ?_⟩
  · intro h7
    rw [hA, if_pos h7]
  · intro h7
    rw [hA, if_neg h7]
  · intro h7 h9
    rw [hA, if_neg h7]
    unfold htlcPath
    rw [if_pos h9]

/-- Evaluation of C6 on a concrete out-of-range unlock byte. -/
theorem unlock_dispatch_app :
    auth bl0 sh0 ge0 env6 = .err .InvalidUnlockType :=
  (unlock_dispatch bl0 sh0 ge0 env6 w199k5 1 none (by decide) (by decide)
    rfl (by decide) (by decide) (by decide)).2.2 (by decide) (by decide)

/-- C1: in the HTLC arm at index k, once the per-HTLC logic succeeds, the
outcome is OutputLockError exactly when the output-0 lock does not carry
the script code hash, the script hash type and args equal to the first 20
bytes of the blake2b hash of the witness script with the k-th 85-byte HTLC
record removed (base and remaining records unchanged and in order). -/
theorem output_lock_continuation (blake2b_256 sha256 : List Nat → List Nat)
    (ge : Nat → Nat → Bool) (e : Env) (w : List Nat) (n : Nat)
    (pre : Option (List Nat)) (k amt0 amt : Nat) (pkh : List Nat) (out : OutCell)
    (h1 : e.hasSecondInput = false)
    (h2 : e.scriptArgs.length = 20)
    (h3 : e.witness = EMPTY_WITNESS_ARGS ++ w)
    (h4 : 114 ≤ w.length)
    (h5 : parseWitness w = some (n, pre))
    (h6 : (blake2b_256 (w.take (48 + 85 * n))).take 20 = e.scriptArgs)
    (h7 : w.getD (48 + 85 * n) 0 = k)
    (h8 : k ≠ 255)
    (h9 : k < n)
    (h10 : initialAmount e = some amt0)
    (h11 : processHtlc blake2b_256 sha256 ge e.inputSince pre
      ((chunks85 ((w.drop 48).take (85 * n))).getD k []) amt0 = .ok (amt, pkh))
    (h12 : e.output0 = some out) :
    auth blake2b_256 sha256 ge e = .err .OutputLockError ↔
      ¬ (out.lock.codeHash = e.scriptCodeHash ∧
         out.lock.hashType = e.scriptHashType ∧
         out.lock.args = (blake2b_256 (newWitnessScript w (48 + 85 * n) k)).take 20) := by
  have hA := auth_htlc_reach blake2b_256 sha256 ge e w n pre k amt0
    h1 h2 h3 h4 h5 h6 h7 h8 h9 h10
  rw [h11, h12] at hA
  dsimp only at hA
  constructor
  · intro h
    by_cases hc : out.lock.codeHash = e.scriptCodeHash ∧
        out.lock.hashType = e.scriptHashType ∧
        out.lock.args = (blake2b_256 (newWitnessScript w (48 + 85 * n) k)).take 20
    · rw [if_neg (by simp [hc.1, hc.2.1, hc.2.2])] at hA
      exact absurd (hA.symm.trans h) (outputAmountCheck_ne_lockErr e out amt _ pkh)
    · exact hc
  · intro hc
    rw [hA, if_pos (by tauto)]

/-- Evaluation of C1 on a concrete refund with a mismatched output lock. -/
theorem output_lock_continuation_app :
    auth bl0 sh0 ge0 env1 = .err .OutputLockError :=
  (output_lock_continuation bl0 sh0 ge0 env1 w199 1 none 0 100 100
    (List.replicate 20 6) out1 (by decide) (by decide) rfl (by decide)
    (by decide) (by decide) (by decide) (by decide) (by decide) (by decide)
    rfl (by decide)).mpr (by decide)

/-- C2: the amount accounting of the HTLC arm: new_amount starts as the
little-endian u128 of the first 16 bytes of the input cell data when the
group input has a type script and as the input capacity otherwise; after
the per-HTLC adjustment, with a type script the output-0 capacity must
equal the input capacity (else OutputCapacityError), the output-0 type
script must be the same (else OutputTypeError) and the first 16 bytes of
the output data must decode to new_amount (else OutputUdtAmountError);
without a type script the output-0 capacity must equal new_amount (else
OutputCapacityError). -/
theorem output_amount_continuation (blake2b_256 sha256 : List Nat → List Nat)
    (ge : Nat → Nat → Bool) (e : Env) (w : List Nat) (n : Nat)
    (pre : Option (List Nat)) (k amt0 amt : Nat) (pkh : List Nat) (out : OutCell)
    (h1 : e.hasSecondInput = false)
    (h2 : e.scriptArgs.length = 20)
    (h3 : e.witness = EMPTY_WITNESS_ARGS ++ w)
    (h4 : 114 ≤ w.length)
    (h5 : parseWitness w = some (n, pre))
    (h6 : (blake2b_256 (w.take (48 + 85 * n))).take 20 = e.scriptArgs)
    (h7 : w.getD (48 + 85 * n) 0 = k)
    (h8 : k ≠ 255)
    (h9 : k < n)
    (h10 : initialAmount e = some amt0)
    (h11 : processHtlc blake2b_256 sha256 ge e.inputSince pre
      ((chunks85 ((w.drop 48).take (85 * n))).getD k []) amt0 = .ok (amt, pkh))
    (h12 : e.output0 = some out)
    (h13 : out.lock.codeHash = e.scriptCodeHash)
    (h14 : out.lock.hashType = e.scriptHashType)
    (h15 : out.lock.args = (blake2b_256 (newWitnessScript w (48 + 85 * n) k)).take 20) :
    (∀ udt, e.inputTypeScript = some udt →
      (out.capacity ≠ e.inputCapacity →
        auth blake2b_256 sha256 ge e = .err .OutputCapacityError) ∧
      (out.capacity = e.inputCapacity → out.typeScript ≠ some udt →
        auth blake2b_256 sha256 ge e = .err .OutputTypeError) ∧
      (out.capacity = e.inputCapacity → out.typeScript = some udt →
        16 ≤ out.data.length → u128_le out.data ≠ amt →
        auth blake2b_256 sha256 ge e = .err .OutputUdtAmountError) ∧
      (out.capacity = e.inputCapacity → out.typeScript = some udt →
        16 ≤ out.data.length → u128_le out.data = amt →
        auth blake2b_256 sha256 ge e =
          .ok ((w.drop (48 + 85 * n + 1)).take 65) e.txHash pkh)) ∧
    (e.inputTypeScript = none →
      (out.capacity ≠ amt →
        auth blake2b_256 sha256 ge e = .err .OutputCapacityError) ∧
      (out.capacity = amt →
        auth blake2b_256 sha256 ge e =
          .ok ((w.drop (48 + 85 * n + 1)).take 65) e.txHash pkh)) ∧
    (∀ udt, e.inputTypeScript = some udt → 16 ≤ e.inputData.length →
      initialAmount e = some (u128_le e.inputData)) ∧
    (e.inputTypeScript = none → initialAmount e = some e.inputCapacity) := by
  have hA := auth_htlc_reach blake2b_256 sha256 ge e w n pre k amt0
    h1 h2 h3 h4 h5 h6 h7 h8 h9 h10
  rw [h11, h12] at hA
  dsimp only at hA
  rw [if_neg (by simp [h13, h14, h15])] at hA
  unfold outputAmountCheck at hA
  refine ⟨?_, ?_, ?_, ?_⟩
  · intro udt hT
    rw [hT] at hA
    dsimp only at hA
    refine ⟨?_, ?_, ?_, ?_⟩
    · intro hcap
      rw [hA, if_pos hcap]
    · intro hcap hty
      rw [hA, if_neg (by simp [hcap]), if_pos hty]
    · intro hcap hty hdl hamt
      rw [hA, if_neg (by simp [hcap]), if_neg (by simp [hty]),
        if_neg (by omega), if_pos hamt]
    · intro hcap hty hdl hamt
      rw [hA, if_neg (by simp [hcap]), if_neg (by simp [hty]),
        if_neg (by omega), if_neg (by simp [hamt])]
  · intro hT
    rw [hT] at hA
    dsimp only at hA
    refine ⟨?_, ?_⟩
    · intro hcap
      rw [hA, if_pos hcap]
    · intro hcap
      rw [hA, if_neg (by simp [hcap])]
  · intro udt hT hdl
    unfold initialAmount
    rw [hT]
    simp [show ¬ e.inputData.length < 16 by omega]
  · intro hT
    unfold initialAmount
    rw [hT]

/-- Evaluation of C2 on a concrete UDT refund with a capacity mismatch. -/
theorem output_amount_continuation_app :
    auth bl0 sh0 ge0 env2 = .err .OutputCapacityError :=
  ((output_amount_continuation bl0 sh0 ge0 env2 w199 1 none 0 100 100
    (List.replicate 20 6) out2 (by decide) (by decide) rfl (by decide)
    (by decide) (by decide) (by decide) (by decide) (by decide) rfl
    rfl (by decide) (by decide) (by decide) (by decide)).1 udt0 rfl).1
    (by decide)

/-- C4: in the since = 0 HTLC paths, a missing preimage, or one whose hash
(blake2b truncated to 20 bytes when flag bit 1 is 0, sha256 truncated to
20 bytes when it is 1) differs from the payment hash of the record, is
rejected with PreimageError for both directions; with a valid preimage the
offered case subtracts the payment amount and authenticates against the
remote HTLC pubkey hash, and the received case keeps the amount and
authenticates against the local HTLC pubkey hash. -/
theorem preimage_claim (blake2b_256 sha256 : List Nat → List Nat)
    (ge : Nat → Nat → Bool) (e : Env) (w : List Nat) (n : Nat)
    (pre : Option (List Nat)) (k amt0 : Nat) (htlc : List Nat)
    (h1 : e.hasSecondInput = false)
    (h2 : e.scriptArgs.length = 20)
    (h3 : e.witness = EMPTY_WITNESS_ARGS ++ w)
    (h4 : 114 ≤ w.length)
    (h5 : parseWitness w = some (n, pre))
    (h6 : (blake2b_256 (w.take (48 + 85 * n))).take 20 = e.scriptArgs)
    (h7 : w.getD (48 + 85 * n) 0 = k)
    (h8 : k ≠ 255)
    (h9 : k < n)
    (h10 : initialAmount e = some amt0)
    (hh : htlc = (chunks85 ((w.drop 48).take (85 * n))).getD k [])
    (hs : e.inputSince = 0) :
    (pre = none → auth blake2b_256 sha256 ge e = .err .PreimageError) ∧
    (∀ p, pre = some p →
      paymentHash htlc ≠
        (if htlcFlags htlc / 2 % 2 = 0 then (blake2b_256 p).take 20
         else (sha256 p).take 20) →
      auth blake2b_256 sha256 ge e = .err .PreimageError) ∧
    (∀ p, pre = some p →
      paymentHash htlc =
        (if htlcFlags htlc / 2 % 2 = 0 then (blake2b_256 p).take 20
         else (sha256 p).take 20) →
      (htlcFlags htlc % 2 = 0 →
        processHtlc blake2b_256 sha256 ge e.inputSince pre htlc amt0 =
          .ok (u128_sub amt0 (paymentAmount htlc), remoteHtlcPubkeyHash htlc)) ∧
      (htlcFlags htlc % 2 = 1 →
        processHtlc blake2b_256 sha256 ge e.inputSince pre htlc amt0 =
          .ok (amt0, localHtlcPubkeyHash htlc)) ∧
      (∀ s m q, auth blake2b_256 sha256 ge e = .ok s m q →
        (htlcFlags htlc % 2 = 0 → q = remoteHtlcPubkeyHash htlc) ∧
        (htlcFlags htlc % 2 = 1 → q = localHtlcPubkeyHash htlc))) := by
  have hA := auth_htlc_reach blake2b_256 sha256 ge e w n pre k amt0
    h1 h2 h3 h4 h5 h6 h7 h8 h9 h10
  rw [← hh] at hA
  refine ⟨?_, ?_, ?_⟩
  · intro hp
    have hP : processHtlc blake2b_256 sha256 ge e.inputSince pre htlc amt0 =
        .error .PreimageError := by
      unfold processHtlc
      rw [hs, hp]
      by_cases hf : htlcFlags htlc % 2 = 0 <;> simp [hf]
    rw [hP] at hA
    dsimp only at hA
    exact hA
  · intro p hp hm
    have hP : processHtlc blake2b_256 sha256 ge e.inputSince pre htlc amt0 =
        .error .PreimageError := by
      unfold processHtlc
      rw [hs, hp]
      by_cases hf : htlcFlags htlc % 2 = 0 <;> simp [hf, hm]
    rw [hP] at hA
    dsimp only at hA
    exact hA
  · intro p hp hm
    have hP0 : htlcFlags htlc % 2 = 0 →
        processHtlc blake2b_256 sha256 ge e.inputSince pre htlc amt0 =
          .ok (u128_sub amt0 (paymentAmount htlc), remoteHtlcPubkeyHash htlc) := by
      intro hf
      unfold processHtlc
      rw [hs, hp]
      simp [hf, hm]
    have hP1 : htlcFlags htlc % 2 = 1 →
        processHtlc blake2b_256 sha256 ge e.inputSince pre htlc amt0 =
          .ok (amt0, localHtlcPubkeyHash htlc) := by
      intro hf
      unfold processHtlc
      rw [hs, hp]
      simp [show htlcFlags htlc % 2 ≠ 0 by omega, hm]
    refine ⟨hP0, hP1, ?_⟩
    intro s m q hok
    by_cases hf : htlcFlags htlc % 2 = 0
    · rw [hP0 hf] at hA
      dsimp only at hA
      rcases hout : e.output0 with _ | out <;> rw [hout] at hA <;> dsimp only at hA <;>
        rw [hA] at hok
      · simp at hok
      · split at hok
        · simp at hok
        · exact ⟨fun _ => (outputAmountCheck_ok hok).2.2, fun hf1 => by omega⟩
    · have hf1 : htlcFlags htlc % 2 = 1 := by omega
      rw [hP1 hf1] at hA
      dsimp only at hA
      rcases hout : e.output0 with _ | out <;> rw [hout] at hA <;> dsimp only at hA <;>
        rw [hA] at hok
      · simp at hok
      · split at hok
        · simp at hok
        · exact ⟨fun hf0 => by omega, fun _ => (outputAmountCheck_ok hok).2.2⟩

/-- Evaluation of C4 on a concrete claim with a wrong preimage. -/
theorem preimage_claim_app :
    auth bl0 sh0 ge0 env4 = .err .PreimageError :=
  (preimage_claim bl0 sh0 ge0 env4 w231 1 (some (List.replicate 32 1)) 0 100
    htlcP (by decide) (by decide) rfl (by decide) (by decide) (by decide)
    (by decide) (by decide) (by decide) (by decide) (by decide)
    (by decide)).2.1 (List.replicate 32 1) rfl (by decide)

/-- C5: in the since ≠ 0 HTLC refund paths, the script requires
since ≥ htlc_expiry as time-lock values and rejects with InvalidSince
otherwise, in particular whenever the two values carry different tag
classes (sinceGe models the external Since comparison from the spec); on
success an offered HTLC refunds against the local HTLC pubkey hash with
the amount unchanged, and a received HTLC refunds against the remote HTLC
pubkey hash with the payment amount subtracted. -/
theorem refund_expiry (blake2b_256 sha256 : List Nat → List Nat)
    (e : Env) (w : List Nat) (n : Nat)
    (pre : Option (List Nat)) (k amt0 : Nat) (htlc : List Nat)
    (h1 : e.hasSecondInput = false)
    (h2 : e.scriptArgs.length = 20)
    (h3 : e.witness = EMPTY_WITNESS_ARGS ++ w)
    (h4 : 114 ≤ w.length)
    (h5 : parseWitness w = some (n, pre))
    (h6 : (blake2b_256 (w.take (48 + 85 * n))).take 20 = e.scriptArgs)
    (h7 : w.getD (48 + 85 * n) 0 = k)
    (h8 : k ≠ 255)
    (h9 : k < n)
    (h10 : initialAmount e = some amt0)
    (hh : htlc = (chunks85 ((w.drop 48).take (85 * n))).getD k [])
    (hs : e.inputSince ≠ 0) :
    (sinceTag e.inputSince ≠ sinceTag (htlcExpiry htlc) →
      auth blake2b_256 sha256 sinceGe e = .err .InvalidSince) ∧
    (sinceGe e.inputSince (htlcExpiry htlc) = false →
      auth blake2b_256 sha256 sinceGe e = .err .InvalidSince) ∧
    (sinceGe e.inputSince (htlcExpiry htlc) = true →
      (htlcFlags htlc % 2 = 0 →
        processHtlc blake2b_256 sha256 sinceGe e.inputSince pre htlc amt0 =
          .ok (amt0, localHtlcPubkeyHash htlc)) ∧
      (htlcFlags htlc % 2 = 1 →
        processHtlc blake2b_256 sha256 sinceGe e.inputSince pre htlc amt0 =
          .ok (u128_sub amt0 (paymentAmount htlc), remoteHtlcPubkeyHash htlc)) ∧
      (∀ s m q, auth blake2b_256 sha256 sinceGe e = .ok s m q →
        (htlcFlags htlc % 2 = 0 → q = localHtlcPubkeyHash htlc) ∧
        (htlcFlags htlc % 2 = 1 → q = remoteHtlcPubkeyHash htlc))) := by
  have hA := auth_htlc_reach blake2b_256 sha256 sinceGe e w n pre k amt0
    h1 h2 h3 h4 h5 h6 h7 h8 h9 h10
  rw [← hh] at hA
  have hrej : sinceGe e.inputSince (htlcExpiry htlc) = false →
      auth blake2b_256 sha256 sinceGe e = .err .InvalidSince := by
    intro hg
    have hP : processHtlc blake2b_256 sha256 sinceGe e.inputSince pre htlc amt0 =
        .error .InvalidSince := by
      unfold processHtlc
      by_cases hf : htlcFlags htlc % 2 = 0 <;> simp [hf, hs, hg]
    rw [hP] at hA
    dsimp only at hA
    exact hA
  refine ⟨?_, hrej, ?_⟩
  · intro htag
    exact hrej (by simp [sinceGe, htag])
  · intro hg
    have hP0 : htlcFlags htlc % 2 = 0 →
        processHtlc blake2b_256 sha256 sinceGe e.inputSince pre htlc amt0 =
          .ok (amt0, localHtlcPubkeyHash htlc) := by
      intro hf
      unfold processHtlc
      simp [hf, hs, hg]
    have hP1 : htlcFlags htlc % 2 = 1 →
        processHtlc blake2b_256 sha256 sinceGe e.inputSince pre htlc amt0 =
          .ok (u128_sub amt0 (paymentAmount htlc), remoteHtlcPubkeyHash htlc) := by
      intro hf
      unfold processHtlc
      simp [show htlcFlags htlc % 2 ≠ 0 by omega, hs, hg]
    refine ⟨hP0, hP1, ?_⟩
    intro s m q hok
    by_cases hf : htlcFlags htlc % 2 = 0
    · rw [hP0 hf] at hA
      dsimp only at hA
      rcases hout : e.output0 with _ | out <;> rw [hout] at hA <;> dsimp only at hA <;>
        rw [hA] at hok
      · simp at hok
      · split at hok
        · simp at hok
        · exact ⟨fun _ => (outputAmountCheck_ok hok).2.2, fun hf1 => by omega⟩
    · have hf1 : htlcFlags htlc % 2 = 1 := by omega
      rw [hP1 hf1] at hA
      dsimp only at hA
      rcases hout : e.output0 with _ | out <;> rw [hout] at hA <;> dsimp only at hA <;>
        rw [hA] at hok
      · simp at hok
      · split at hok
        · simp at hok
        · exact ⟨fun hf0 => by omega, fun _ => (outputAmountCheck_ok hok).2.2⟩

/-- Evaluation of C5 on a concrete refund whose since tag differs from the
expiry tag. -/
theorem refund_expiry_app :
    auth bl0 sh0 sinceGe env5 = .err .InvalidSince :=
  (refund_expiry bl0 sh0 env5 w199 1 none 0 100 htlcA (by decide) (by decide)
    rfl (by decide) (by decide) (by decide) (by decide) (by decide)
    (by decide) (by decide) (by decide) (by decide)).1 (by decide)

end CommitmentLock
